import Mathlib

/-!
Shallow embedding of the reddit-sentiment-dashboard ingest and persistence
pipeline (src/db_utils.py, src/sentiment_analysis.py, src/reddit_scraper.py,
notebooks/poc_exploration.py), together with proofs of the specification
claims about it.

Modelling conventions:
* A pandas DataFrame of Mention rows is modelled as a `List Mention`
  (row-oriented); the generic DataFrame taken by `add_sentiment_scores`
  is additionally modelled column-oriented (`DataFrame` below), matching
  pandas column assignment semantics.
* Python floats are modelled as rationals `ℚ`.
* The SQLite database is modelled as `DBState`: `none` = the database file
  does not exist, `some none` = the file exists but the `mentions` table
  does not, `some (some rows)` = the table holds `rows` in insertion order.
* The external VADER compound scorer and the external Reddit search API are
  opaque collaborators (spec §1 "out of scope"); they are passed in as
  function parameters (`compound`, `search`).
-/

/-- One stored record of a post referencing a tracked brand, with the fields
built in `fetch_reddit_mentions` (src/reddit_scraper.py lines 46-56). -/
structure Mention where
  id : String
  brand : String
  text : String
  subreddit : String
  author : String
  created_utc : Int
  sentiment_score : ℚ
  sentiment_label : String
  url : String
deriving DecidableEq

/-- A pandas timestamp: nanoseconds since the epoch (what
`pd.to_datetime(..., unit=\x27s\x27)` produces). -/
structure Timestamp where
  nanos : Int
deriving DecidableEq

/-- The instant a timestamp denotes, in (rational) seconds since the epoch. -/
def Timestamp.toEpochSec (t : Timestamp) : ℚ := (t.nanos : ℚ) / 1000000000

/-- `pd.to_datetime(x, unit=\x27s\x27)`: seconds since the epoch to a timestamp. -/
def to_datetime_s (s : Int) : Timestamp := ⟨s * 1000000000⟩

/-- A Mention as returned by `load_data`: identical to `Mention` except that
`created_utc` has been materialized as a timestamp (db_utils.py line 48). -/
structure LoadedMention where
  id : String
  brand : String
  text : String
  subreddit : String
  author : String
  created_utc : Timestamp
  sentiment_score : ℚ
  sentiment_label : String
  url : String
deriving DecidableEq

/-- The per-row conversion `load_data` applies to a stored row. -/
def loadedOf (m : Mention) : LoadedMention :=
  { id := m.id, brand := m.brand, text := m.text, subreddit := m.subreddit
    author := m.author, created_utc := to_datetime_s m.created_utc
    sentiment_score := m.sentiment_score, sentiment_label := m.sentiment_label
    url := m.url }

/-- State of the SQLite store: `none` = no database file; `some none` = file
but no `mentions` table; `some (some rows)` = table with `rows`. -/
abbrev DBState := Option (Option (List Mention))

/-- The rows currently held by the `mentions` table ([] if the file or the
table is absent). -/
def rowsOf (db : DBState) : List Mention :=
  match db with
  | some (some rows) => rows
  | _ => []

/-- `save_data` (db_utils.py lines 17-35): empty input is a no-op; otherwise
`to_sql(..., if_exists=\x27append\x27)` creates the table if needed and appends
all rows after the existing ones. -/
def save_data (df : List Mention) (db : DBState) : DBState :=
  if df.isEmpty then db
  else some (some (rowsOf db ++ df))

/-- `load_data` (db_utils.py lines 37-55): returns [] when the file does not
exist (lines 39-40) or the `SELECT` fails because the table is absent (the
`except` branch, lines 50-53); otherwise every stored row with `created_utc`
converted by `pd.to_datetime(..., unit=\x27s\x27)` (line 48). -/
def load_data (db : DBState) : List LoadedMention :=
  match db with
  | none => []
  | some none => []
  | some (some rows) => rows.map loadedOf

/-- `get_sentiment_label` (src/sentiment_analysis.py lines 4-13); the
thresholds 0.05 and -0.05 are written as the rationals `mkRat 5 100` and its
negation, which denote exactly the same values. -/
def get_sentiment_label (score : ℚ) : String :=
  if score ≥ mkRat 5 100 then "Positive"
  else if score ≤ -(mkRat 5 100) then "Negative"
  else "Neutral"

/-- A raw post as delivered by the external search API (the attributes of
`post` read in src/reddit_scraper.py lines 46-56). -/
structure Post where
  id : String
  title : String
  selftext : String
  author : String
  created_utc : Int
  permalink : String
deriving DecidableEq

/-- The record built for one search hit (src/reddit_scraper.py lines 46-56):
text is title and body concatenated, sentiment fields are placeholders. -/
def postToMention (brand sub_name : String) (p : Post) : Mention :=
  { id := p.id, brand := brand, text := p.title ++ " " ++ p.selftext
    subreddit := sub_name, author := p.author, created_utc := p.created_utc
    sentiment_score := 0, sentiment_label := "Neutral"
    url := "https://reddit.com" ++ p.permalink }

/-- The external Reddit search call `subreddit.search(query, limit, ...)`,
an opaque collaborator: given subreddit name, brand query and limit it either
returns a list of posts or fails. -/
abbrev SearchApi := String → String → Nat → Except String (List Post)

/-- `fetch_reddit_mentions` (src/reddit_scraper.py lines 19-62): outer loop
over subreddits, inner loop over brands; each successful query contributes
its posts mapped through `postToMention`; a failing query is caught (lines
57-58), contributes nothing, and iteration continues. -/
def fetch_reddit_mentions (search : SearchApi) (brands subreddits : List String)
    (limit_per_subreddit : Nat) : List Mention :=
  subreddits.flatMap fun sub_name =>
    brands.flatMap fun brand =>
      match search sub_name brand limit_per_subreddit with
      | Except.ok posts => posts.map (postToMention brand sub_name)
      | Except.error _ => []

/-- What `add_sentiment_scores` (src/sentiment_analysis.py lines 28-34) does
to one row of a mentions DataFrame: sentiment_score becomes the compound
polarity of the text, sentiment_label its thresholded label. -/
def scoreMention (compound : String → ℚ) (m : Mention) : Mention :=
  { m with sentiment_score := compound m.text
           sentiment_label := get_sentiment_label (compound m.text) }

/-- Fixed configuration (notebooks/poc_exploration.py lines 14-16). -/
def BRANDS : List String := ["NVIDIA", "AMD"]

/-- Fixed configuration (notebooks/poc_exploration.py lines 14-16). -/
def SUBREDDITS : List String :=
  ["hardware", "gaming", "pcmasterrace", "buildapc", "intel"]

/-- Fixed configuration (notebooks/poc_exploration.py lines 14-16). -/
def POST_LIMIT : Nat := 200

/-- Steps 1 and 3-5 of `run_update_pipeline` (notebooks/poc_exploration.py
lines 29-59), given the already-fetched latest_df: load existing ids, exit
early on an empty fetch, drop fetched rows whose id is already present, exit
early if nothing is left, otherwise score the remainder and append it. -/
def pipelineSteps (compound : String → ℚ) (latest_df : List Mention)
    (db : DBState) : DBState :=
  let existing_df := load_data db
  let existing_ids := existing_df.map LoadedMention.id
  if latest_df.isEmpty then db
  else
    let new_posts_df := latest_df.filter fun m => !(existing_ids.contains m.id)
    if new_posts_df.isEmpty then db
    else save_data (new_posts_df.map (scoreMention compound)) db

/-- `run_update_pipeline` (notebooks/poc_exploration.py lines 18-61): fetch
with the fixed configuration, then dedup, score and persist. -/
def run_update_pipeline (compound : String → ℚ) (search : SearchApi)
    (db : DBState) : DBState :=
  pipelineSteps compound
    (fetch_reddit_mentions search BRANDS SUBREDDITS POST_LIMIT) db

/-- The dedup predicate of step 3: keep a fetched row iff its id is not yet
in the store. -/
def isUnseen (db : DBState) (m : Mention) : Bool :=
  !(((rowsOf db).map Mention.id).contains m.id)

/-- Concrete post with id "A" for the §8 dedup scenario. -/
def postA : Post := ⟨"A", "title A", "body A", "alice", 100, "/r/hardware/a"⟩

/-- Concrete post with id "B" for the §8 dedup scenario. -/
def postB : Post := ⟨"B", "title B", "body B", "bob", 101, "/r/hardware/b"⟩

/-- Concrete post with id "C" for the §8 dedup scenario. -/
def postC : Post := ⟨"C", "title C", "body C", "carol", 102, "/r/hardware/c"⟩

/-- Concrete post with id "X", used to exhibit one post matched by two
different brand queries. -/
def postX : Post := ⟨"X", "title X", "body X", "dave", 103, "/r/gaming/x"⟩

/-- A search behaviour returning posts A, B, C for the (hardware, NVIDIA)
query and nothing elsewhere. -/
def searchABC : SearchApi := fun sub_name brand _ =>
  if sub_name = "hardware" ∧ brand = "NVIDIA" then Except.ok [postA, postB, postC]
  else Except.ok []

/-- A search behaviour where the same post X is matched by both brand
queries in r/gaming. -/
def searchDup : SearchApi := fun sub_name _ _ =>
  if sub_name = "gaming" then Except.ok [postX] else Except.ok []

/-- A search behaviour that fails on the (hardware, NVIDIA) pair and
succeeds elsewhere, with one hit for (gaming, AMD). -/
def searchFail : SearchApi := fun sub_name brand _ =>
  if sub_name = "hardware" ∧ brand = "NVIDIA" then Except.error "boom"
  else if sub_name = "gaming" ∧ brand = "AMD" then Except.ok [postX]
  else Except.ok []

/-- A concrete opaque compound scorer for scenario evaluation. -/
def compound0 : String → ℚ := fun _ => mkRat 1 10

/-- The stored row for post A (already in the store in the §8 scenario). -/
def storedA : Mention := postToMention "NVIDIA" "hardware" postA

/-- Store already holding the row for id "A". -/
def dbWithA : DBState := some (some [storedA])

/-- A cell value of a generic DataFrame: a string or a float. -/
inductive Val where
  | str : String → Val
  | num : ℚ → Val
deriving DecidableEq

/-- A pandas DataFrame, column-oriented: (column name, column values) pairs
in display order. -/
structure DataFrame where
  cols : List (String × List Val)
deriving DecidableEq

/-- The column labels of a DataFrame (`df.columns`). -/
def colNames (df : DataFrame) : List String := df.cols.map Prod.fst

/-- Reading column c (`df[c]`); the empty column when c is absent. -/
def getCol (df : DataFrame) (c : String) : List Val :=
  ((df.cols.find? fun p => p.1 == c).map Prod.snd).getD []

/-- Column assignment `df[c] = vs`: replace the values of an existing column
in place, else append a new column at the end (pandas semantics). -/
def setCol (df : DataFrame) (c : String) (vs : List Val) : DataFrame :=
  if (df.cols.map Prod.fst).contains c then
    ⟨df.cols.map fun p => if p.1 == c then (p.1, vs) else p⟩
  else ⟨df.cols ++ [(c, vs)]⟩

/-- `get_sentiment_label` applied to a cell of the sentiment_score column
(src/sentiment_analysis.py line 34). The column was just assigned numeric
scores, so the string case cannot occur on the pipeline's inputs. -/
def labelVal : Val → Val
  | Val.num q => Val.str (get_sentiment_label q)
  | Val.str _ => Val.str ""

/-- `add_sentiment_scores` (src/sentiment_analysis.py lines 15-36): raises a
ValueError when no text column is present (lines 25-26); otherwise assigns
the compound polarity of each text cell to sentiment_score (line 31) and the
thresholded label of each sentiment_score cell to sentiment_label (line 34),
returning the updated frame. -/
def add_sentiment_scores (compound : Val → ℚ) (df : DataFrame) :
    Except String DataFrame :=
  if !((df.cols.map Prod.fst).contains "text") then
    Except.error "DataFrame must contain a text column."
  else
    let df1 := setCol df "sentiment_score"
      ((getCol df "text").map fun v => Val.num (compound v))
    let df2 := setCol df1 "sentiment_label"
      ((getCol df1 "sentiment_score").map labelVal)
    Except.ok df2

/-- A DataFrame with its two sentiment columns dropped, used to state that
the scorer leaves everything else untouched. -/
def stripSentiment (df : DataFrame) : DataFrame :=
  ⟨df.cols.filter fun p =>
    !(p.1 == "sentiment_score") && !(p.1 == "sentiment_label")⟩

/-- Concrete two-column frame with a text column, for witnesses. -/
def dfSample : DataFrame :=
  ⟨[("id", [Val.str "A"]), ("text", [Val.str "great product"])]⟩

/-- Concrete cell-level compound scorer for witnesses. -/
def compoundV0 : Val → ℚ := fun _ => mkRat 1 10

theorem load_data_eq_map_rowsOf (db : DBState) :
    load_data db = (rowsOf db).map loadedOf := by
  match db with
  | none => rfl
  | some none => rfl
  | some (some rows) => rfl

theorem scoreMention_id (c : String → ℚ) (m : Mention) :
    (scoreMention c m).id = m.id := rfl

theorem load_data_ids (db : DBState) :
    (load_data db).map LoadedMention.id = (rowsOf db).map Mention.id := by
  rw [load_data_eq_map_rowsOf, List.map_map]
  rfl

theorem isUnseen_iff (db : DBState) (m : Mention) :
    isUnseen db m = true ↔ m.id ∉ (rowsOf db).map Mention.id := by
  rw [isUnseen]
  simp [List.elem_iff]

/-- Characterization of the pipeline body: either nothing new survives dedup
(and the store is untouched) or exactly the unseen fetched rows, scored, are
appended after the existing rows. -/
theorem pipelineSteps_eq (c : String → ℚ) (latest : List Mention)
    (db : DBState) :
    pipelineSteps c latest db =
      if (latest.filter (isUnseen db)).isEmpty then db
      else some (some (rowsOf db ++
        (latest.filter (isUnseen db)).map (scoreMention c))) := by
  have hunseen : isUnseen db = fun m : Mention =>
      !(((rowsOf db).map Mention.id).contains m.id) := rfl
  rw [hunseen]
  simp only [pipelineSteps]
  rw [load_data_ids]
  by_cases hl : latest.isEmpty
  · rw [if_pos hl]
    rw [List.isEmpty_iff.mp hl]
    rw [List.filter_nil]
    rfl
  · rw [if_neg hl]
    by_cases hn :
        (latest.filter fun m =>
          !(((rowsOf db).map Mention.id).contains m.id)).isEmpty
    · rw [if_pos hn, if_pos hn]
    · rw [if_neg hn, if_neg hn]
      rw [save_data]
      rw [if_neg ?_]
      intro hmap
      exact hn (by
        rw [List.isEmpty_iff] at hmap ⊢
        exact List.map_eq_nil_iff.mp hmap)

theorem rowsOf_pipelineSteps (c : String → ℚ) (latest : List Mention)
    (db : DBState) :
    rowsOf (pipelineSteps c latest db) =
      rowsOf db ++ (latest.filter (isUnseen db)).map (scoreMention c) := by
  rw [pipelineSteps_eq]
  by_cases h : (latest.filter (isUnseen db)).isEmpty
  · rw [if_pos h, List.isEmpty_iff.mp h]
    simp
  · rw [if_neg h]
    rfl

/-- Running the pipeline body twice with the same fetched list changes
nothing the second time: every fetched id is in the store afterwards. -/
theorem pipelineSteps_idem (c : String → ℚ) (latest : List Mention)
    (db : DBState) :
    pipelineSteps c latest (pipelineSteps c latest db) =
      pipelineSteps c latest db := by
  by_cases h : (latest.filter (isUnseen db)).isEmpty
  · have e1 : pipelineSteps c latest db = db := by
      rw [pipelineSteps_eq, if_pos h]
    rw [e1]
    exact e1
  · have e1 : pipelineSteps c latest db =
        some (some (rowsOf db ++
          (latest.filter (isUnseen db)).map (scoreMention c))) := by
      rw [pipelineSteps_eq, if_neg h]
    have hfe : (latest.filter (isUnseen (some (some (rowsOf db ++
        (latest.filter (isUnseen db)).map (scoreMention c)))))).isEmpty := by
      rw [List.isEmpty_iff, List.filter_eq_nil_iff]
      intro m hm hcon
      rw [isUnseen_iff] at hcon
      apply hcon
      show m.id ∈ (rowsOf db ++
        (latest.filter (isUnseen db)).map (scoreMention c)).map Mention.id
      rw [List.map_append]
      by_cases hseen : m.id ∈ (rowsOf db).map Mention.id
      · exact List.mem_append_left _ hseen
      · refine List.mem_append_right _ ?_
        rw [List.map_map]
        have hmf : m ∈ latest.filter (isUnseen db) :=
          List.mem_filter.mpr ⟨hm, (isUnseen_iff db m).mpr hseen⟩
        exact List.mem_map_of_mem _ hmf
    rw [e1, pipelineSteps_eq, if_pos hfe]

/-- Removing one failing pair from the inner (brand) loop: the loop body
yields the same rows whether the pair errors or returns an empty result. -/
theorem fetch_inner_failure (search : SearchApi) (lim : Nat) (s b e : String)
    (he : search s b lim = Except.error e) (sub : String)
    (brands : List String) :
    (brands.flatMap fun brand =>
        match search sub brand lim with
        | Except.ok posts => posts.map (postToMention brand sub)
        | Except.error _ => []) =
      (brands.flatMap fun brand =>
        match (if sub = s ∧ brand = b then Except.ok [] else
            search sub brand lim) with
        | Except.ok posts => posts.map (postToMention brand sub)
        | Except.error _ => []) := by
  induction brands with
  | nil => rfl
  | cons br brs ihb =>
    simp only [List.flatMap_cons]
    rw [ihb]
    congr 1
    by_cases hsb : sub = s ∧ br = b
    · rw [if_pos hsb, hsb.1, hsb.2, he]
      rfl
    · rw [if_neg hsb]

/-- C1: for every score s, `get_sentiment_label` returns "Positive" iff
s ≥ 0.05, "Negative" iff s ≤ -0.05, and "Neutral" otherwise; boundary cases
label(0.05) = Positive, label(-0.05) = Negative, label(0) = Neutral. -/
theorem get_sentiment_label_spec :
    (∀ s : ℚ,
      (get_sentiment_label s = "Positive" ↔ s ≥ 0.05) ∧
      (get_sentiment_label s = "Negative" ↔ s ≤ -0.05) ∧
      (get_sentiment_label s = "Neutral" ↔ (¬ s ≥ 0.05 ∧ ¬ s ≤ -0.05))) ∧
    get_sentiment_label 0.05 = "Positive" ∧
    get_sentiment_label (-0.05) = "Negative" ∧
    get_sentiment_label 0 = "Neutral" := by
  have h05 : mkRat 5 100 = (0.05 : ℚ) := by
    rw [Rat.mkRat_eq_divInt, Rat.divInt_eq_div]
    norm_num
  have hdef : ∀ s : ℚ, get_sentiment_label s =
      if s ≥ 0.05 then "Positive"
      else if s ≤ -0.05 then "Negative"
      else "Neutral" := by
    intro s
    rw [get_sentiment_label, h05]
  have hlt : (-0.05 : ℚ) < 0.05 := by norm_num
  refine ⟨fun s => ?_, ?_, ?_, ?_⟩
  · rw [hdef]
    by_cases h1 : s ≥ 0.05
    · rw [if_pos h1]
      refine ⟨⟨fun _ => h1, fun _ => rfl⟩, ⟨fun hc => ?_, fun hc => ?_⟩,
        ⟨fun hc => ?_, fun hc => ?_⟩⟩
      · exact absurd hc (by decide)
      · linarith
      · exact absurd hc (by decide)
      · exact absurd h1 hc.1
    · rw [if_neg h1]
      by_cases h2 : s ≤ -0.05
      · rw [if_pos h2]
        refine ⟨⟨fun hc => absurd hc (by decide), fun hc => absurd hc h1⟩,
          ⟨fun _ => h2, fun _ => rfl⟩,
          ⟨fun hc => absurd hc (by decide), fun hc => absurd h2 hc.2⟩⟩
      · rw [if_neg h2]
        refine ⟨⟨fun hc => absurd hc (by decide), fun hc => absurd hc h1⟩,
          ⟨fun hc => absurd hc (by decide), fun hc => absurd hc h2⟩,
          ⟨fun _ => ⟨h1, h2⟩, fun _ => rfl⟩⟩
  · rw [hdef, if_pos (by norm_num : (0.05 : ℚ) ≥ 0.05)]
  · rw [hdef, if_neg (by norm_num : ¬ (-0.05 : ℚ) ≥ 0.05),
      if_pos (by norm_num : (-0.05 : ℚ) ≤ -0.05)]
  · rw [hdef, if_neg (by norm_num : ¬ (0 : ℚ) ≥ 0.05),
      if_neg (by norm_num : ¬ (0 : ℚ) ≤ -0.05)]

/-- C7: loading from the store when the database file does not exist
(`DBState` = none), or when the table is absent (`some none`), returns the
empty sequence rather than raising. -/
theorem load_data_empty_store :
    load_data (none : DBState) = [] ∧ load_data (some none : DBState) = [] :=
  ⟨rfl, rfl⟩

/-- C5: a Mention written via `save_data` and then read via `load_data` comes
back with every field identical except `created_utc`, which is converted from
the stored epoch-seconds value to a timestamp denoting the same instant. -/
theorem save_load_round_trip :
    ∀ (m : Mention) (db : DBState),
      load_data (save_data [m] db) =
        load_data db ++
          [{ id := m.id, brand := m.brand, text := m.text
             subreddit := m.subreddit, author := m.author
             created_utc := to_datetime_s m.created_utc
             sentiment_score := m.sentiment_score
             sentiment_label := m.sentiment_label, url := m.url }] ∧
      (to_datetime_s m.created_utc).toEpochSec = (m.created_utc : ℚ) := by
  intro m db
  constructor
  · rw [save_data]
    simp only [List.isEmpty_cons, if_neg Bool.false_ne_true]
    rw [load_data, load_data_eq_map_rowsOf]
    simp [loadedOf]
  · rw [to_datetime_s, Timestamp.toEpochSec]
    push_cast
    field_simp

/-- C2: the pipeline scores and persists exactly those fetched records whose
id is absent from the store; in particular with fetched ids {A,B,C} and the
store holding id A, exactly the rows for B and C are appended, leaving the
store with ids [A, B, C]. -/
theorem pipeline_persists_exactly_unseen :
    (∀ (compound : String → ℚ) (search : SearchApi) (db : DBState),
      rowsOf (run_update_pipeline compound search db) =
        rowsOf db ++
          ((fetch_reddit_mentions search BRANDS SUBREDDITS POST_LIMIT).filter
            (isUnseen db)).map (scoreMention compound)) ∧
    rowsOf (run_update_pipeline compound0 searchABC dbWithA) =
      [storedA, scoreMention compound0 (postToMention "NVIDIA" "hardware" postB),
        scoreMention compound0 (postToMention "NVIDIA" "hardware" postC)] ∧
    (rowsOf (run_update_pipeline compound0 searchABC dbWithA)).map Mention.id =
      ["A", "B", "C"] := by
  refine ⟨fun c s db => ?_, by decide, by decide⟩
  unfold run_update_pipeline
  exact rowsOf_pipelineSteps c _ db

/-- C3: running the update pipeline twice in succession against an unchanged
external source leaves the store exactly as after the first run — the second
run appends zero rows. -/
theorem pipeline_idempotent :
    ∀ (compound : String → ℚ) (search : SearchApi) (db : DBState),
      run_update_pipeline compound search
          (run_update_pipeline compound search db) =
        run_update_pipeline compound search db := by
  intro c s db
  unfold run_update_pipeline
  exact pipelineSteps_idem c _ db

/-- C4: the pipeline only appends: every row present in the store before a
run is still present, unchanged and in place, afterwards. -/
theorem pipeline_append_only :
    ∀ (compound : String → ℚ) (search : SearchApi) (db : DBState),
      ∃ appended,
        rowsOf (run_update_pipeline compound search db) =
          rowsOf db ++ appended := by
  intro c s db
  unfold run_update_pipeline
  exact ⟨_, rowsOf_pipelineSteps c _ db⟩

/-- C6: if the external query for one (subreddit, brand) pair fails, the
fetch returns the same rows as if that pair had returned no results: the
failure is absorbed, the pair contributes zero rows, and every other pair is
processed as before. (The fetch is total: it returns a plain list, never an
exception.) -/
theorem fetch_failure_isolated :
    ∀ (search : SearchApi) (brands subreddits : List String) (lim : Nat)
      (s b e : String),
      search s b lim = Except.error e →
      fetch_reddit_mentions search brands subreddits lim =
        fetch_reddit_mentions
          (fun s2 b2 l2 =>
            if s2 = s ∧ b2 = b then Except.ok [] else search s2 b2 l2)
          brands subreddits lim := by
  intro search brands subreddits lim s b e he
  unfold fetch_reddit_mentions
  induction subreddits with
  | nil => rfl
  | cons sub subs ih =>
    simp only [List.flatMap_cons]
    rw [ih]
    congr 1
    exact fetch_inner_failure search lim s b e he sub brands

/-- Witness for C6: with a source failing on (hardware, NVIDIA), the fetch
over the configured pairs equals the fetch where that pair returns no
results. -/
theorem fetch_failure_isolated_witness :
    searchFail "hardware" "NVIDIA" 200 = Except.error "boom" ∧
    fetch_reddit_mentions searchFail BRANDS SUBREDDITS 200 =
      fetch_reddit_mentions
        (fun s2 b2 l2 =>
          if s2 = "hardware" ∧ b2 = "NVIDIA" then Except.ok []
          else searchFail s2 b2 l2)
        BRANDS SUBREDDITS 200 :=
  ⟨rfl, fetch_failure_isolated searchFail BRANDS SUBREDDITS 200
    "hardware" "NVIDIA" "boom" rfl⟩

/-- C10: dedup is applied only against ids already in the store, not within
the fetched batch: for an id i not yet stored, every fetched record with id
i is scored and appended, so the run adds as many rows with id i as the
fetch returned (possibly more than one). -/
theorem pipeline_keeps_batch_duplicates :
    ∀ (compound : String → ℚ) (search : SearchApi) (db : DBState)
      (i : String),
      i ∉ (rowsOf db).map Mention.id →
      (rowsOf (run_update_pipeline compound search db)).countP
          (fun m => m.id == i) =
        (fetch_reddit_mentions search BRANDS SUBREDDITS POST_LIMIT).countP
          (fun m => m.id == i) := by
  intro c s db i h
  unfold run_update_pipeline
  rw [rowsOf_pipelineSteps, List.countP_append]
  have h0 : (rowsOf db).countP (fun m => m.id == i) = 0 := by
    rw [List.countP_eq_zero]
    intro m hm hbeq
    apply h
    rw [← eq_of_beq hbeq]
    exact List.mem_map_of_mem _ hm
  rw [h0, Nat.zero_add, List.countP_map]
  show ((fetch_reddit_mentions s BRANDS SUBREDDITS POST_LIMIT).filter
      (isUnseen db)).countP (fun m => m.id == i) = _
  rw [List.countP_filter]
  have hfun : (fun a : Mention => (a.id == i) && isUnseen db a) =
      fun a : Mention => a.id == i := by
    funext a
    cases hb : (a.id == i) with
    | false => simp
    | true =>
      rw [Bool.true_and]
      rw [isUnseen_iff]
      rw [eq_of_beq hb]
      exact h
  rw [hfun]

/-- Witness for C10: with an empty store and a source where post X is
matched by both brand queries in r/gaming, the run appends two rows with id
"X". -/
theorem pipeline_keeps_batch_duplicates_witness :
    ("X" ∉ (rowsOf (none : DBState)).map Mention.id) ∧
    (rowsOf (run_update_pipeline compound0 searchDup none)).countP
        (fun m => m.id == "X") = 2 := by
  refine ⟨by decide, ?_⟩
  rw [pipeline_keeps_batch_duplicates compound0 searchDup none "X" (by decide)]
  decide

theorem add_sentiment_scores_eq_ok (comp : Val → ℚ) (df : DataFrame)
    (hcont : (df.cols.map Prod.fst).contains "text" = true) :
    add_sentiment_scores comp df = Except.ok
      (setCol
        (setCol df "sentiment_score"
          ((getCol df "text").map fun v => Val.num (comp v)))
        "sentiment_label"
        ((getCol
          (setCol df "sentiment_score"
            ((getCol df "text").map fun v => Val.num (comp v)))
          "sentiment_score").map labelVal)) := by
  unfold add_sentiment_scores
  rw [hcont]
  rfl

theorem add_sentiment_scores_eq_error (comp : Val → ℚ) (df : DataFrame)
    (hcont : (df.cols.map Prod.fst).contains "text" = false) :
    add_sentiment_scores comp df =
      Except.error "DataFrame must contain a text column." := by
  unfold add_sentiment_scores
  rw [hcont]
  rfl

theorem getCol_setCol_ne (df : DataFrame) (c c2 : String) (vs : List Val)
    (h : c2 ≠ c) : getCol (setCol df c vs) c2 = getCol df c2 := by
  unfold setCol getCol
  by_cases hc : (df.cols.map Prod.fst).contains c
  · rw [if_pos hc]
    dsimp only
    rw [List.find?_map]
    have hpred : ((fun p : String × List Val => p.1 == c2) ∘
        fun p => if p.1 == c then (p.1, vs) else p) =
        fun p : String × List Val => p.1 == c2 := by
      funext p
      simp only [Function.comp_apply]
      by_cases hp : p.1 == c
      · rw [if_pos hp]
      · rw [if_neg hp]
    rw [hpred]
    cases hfind : df.cols.find? fun p => p.1 == c2 with
    | none => rfl
    | some q =>
      have hq : (q.1 == c2) = true := by simpa using List.find?_some hfind
      have hne : q.1 ≠ c := by
        rw [eq_of_beq hq]
        exact h
      simp [hne]
  · rw [if_neg hc]
    dsimp only
    rw [List.find?_append]
    have hnone : List.find? (fun p : String × List Val => p.1 == c2)
        [(c, vs)] = none := by
      have hcc : (c == c2) = false := by
        rw [beq_eq_false_iff_ne]
        exact fun hx => h hx.symm
      simp [List.find?, hcc]
    rw [hnone, Option.or_none]

theorem stripSentiment_setCol (df : DataFrame) (c : String) (vs : List Val)
    (hc : (!(c == "sentiment_score") && !(c == "sentiment_label")) = false) :
    stripSentiment (setCol df c vs) = stripSentiment df := by
  unfold setCol stripSentiment
  by_cases hmem : (df.cols.map Prod.fst).contains c
  · rw [if_pos hmem]
    congr 1
    dsimp only
    rw [List.filter_map]
    have hpred : ((fun p : String × List Val =>
        !(p.1 == "sentiment_score") && !(p.1 == "sentiment_label")) ∘
        fun p => if p.1 == c then (p.1, vs) else p) =
        fun p : String × List Val =>
          !(p.1 == "sentiment_score") && !(p.1 == "sentiment_label") := by
      funext p
      simp only [Function.comp_apply]
      by_cases hp : p.1 == c
      · rw [if_pos hp]
      · rw [if_neg hp]
    rw [hpred]
    refine (List.map_congr_left ?_).trans (List.map_id _)
    intro q hq
    have hqp := (List.mem_filter.mp hq).2
    have hqc : (q.1 == c) = false := by
      rw [beq_eq_false_iff_ne]
      intro hqc1
      rw [hqc1] at hqp
      rw [hc] at hqp
      exact absurd hqp Bool.false_ne_true
    simp [hqc]
  · rw [if_neg hmem]
    congr 1
    rw [List.filter_append]
    have hone : List.filter (fun p : String × List Val =>
        !(p.1 == "sentiment_score") && !(p.1 == "sentiment_label"))
        [(c, vs)] = [] := by
      simp [List.filter, hc]
    rw [hone, List.append_nil]

/-- C8: the scorer fails exactly when its input lacks a text column: with a
text column it returns a scored frame, without one it returns the
input-shape error (which the caller sees). -/
theorem add_sentiment_scores_error_iff :
    ∀ (compound : Val → ℚ) (df : DataFrame),
      ((∃ e, add_sentiment_scores compound df = Except.error e) ↔
        "text" ∉ colNames df) ∧
      ((∃ out, add_sentiment_scores compound df = Except.ok out) ↔
        "text" ∈ colNames df) := by
  intro comp df
  by_cases hmem : "text" ∈ colNames df
  · rw [add_sentiment_scores_eq_ok comp df (List.elem_iff.mpr hmem)]
    exact ⟨⟨fun ⟨e, he⟩ => Except.noConfusion he, fun hni => absurd hmem hni⟩,
      ⟨fun _ => hmem, fun _ => ⟨_, rfl⟩⟩⟩
  · have hcf : (df.cols.map Prod.fst).contains "text" = false :=
      Bool.eq_false_iff.mpr fun h => hmem (List.elem_iff.mp h)
    rw [add_sentiment_scores_eq_error comp df hcf]
    exact ⟨⟨fun _ => hmem, fun _ => ⟨_, rfl⟩⟩,
      ⟨fun ⟨o, ho⟩ => Except.noConfusion ho, fun hm => absurd hm hmem⟩⟩

/-- C9: on any frame with a text column the scorer only touches the
sentiment_score and sentiment_label columns: every other column (id, brand,
text, subreddit, author, created_utc, url, ...) keeps its values, order and
length, both read individually (getCol) and as the whole frame with the two
sentiment columns dropped (stripSentiment). -/
theorem add_sentiment_scores_frame :
    ∀ (compound : Val → ℚ) (df : DataFrame),
      "text" ∈ colNames df →
      ∃ out, add_sentiment_scores compound df = Except.ok out ∧
        stripSentiment out = stripSentiment df ∧
        ∀ c2, c2 ≠ "sentiment_score" → c2 ≠ "sentiment_label" →
          getCol out c2 = getCol df c2 := by
  intro comp df hmem
  refine ⟨_, add_sentiment_scores_eq_ok comp df (List.elem_iff.mpr hmem),
    ?_, ?_⟩
  · rw [stripSentiment_setCol _ "sentiment_label" _ (by decide),
      stripSentiment_setCol _ "sentiment_score" _ (by decide)]
  · intro c2 h1 h2
    rw [getCol_setCol_ne _ _ _ _ h2, getCol_setCol_ne _ _ _ _ h1]

/-- Witness for C9: on a concrete two-column frame with a text column the
scorer succeeds and leaves the id and text columns untouched. -/
theorem add_sentiment_scores_frame_witness :
    ("text" ∈ colNames dfSample) ∧
    ∃ out, add_sentiment_scores compoundV0 dfSample = Except.ok out ∧
      stripSentiment out = stripSentiment dfSample ∧
      ∀ c2, c2 ≠ "sentiment_score" → c2 ≠ "sentiment_label" →
        getCol out c2 = getCol dfSample c2 :=
  ⟨by decide, add_sentiment_scores_frame compoundV0 dfSample (by decide)⟩
